import Mathlib

/-!
Verification of the retrieval / grounding core of the llm-rag-service
repository.  The Python sources (`app/rag/retrieve.py`, `app/rag/generate.py`,
`app/main.py`, `app/rag/schemas.py`) are shallowly embedded below: floats are
modelled as rationals, Python sets as finsets, dicts with fixed keys as
structures, and the fallible HTTP generation call as an explicit outcome
value.  String primitives (`.lower()`, `.strip()`, slicing, `in`) are
modelled over character lists.
-/

namespace RagService

/-- Apostrophe character, used to build string literals containing one. -/
def apos : String := String.singleton (Char.ofNat 39)

/-- Model of Python `s.lower()` (ASCII case mapping). -/
def pyLower (s : String) : String := String.mk (s.toList.map Char.toLower)

/-- Model of the Python substring test `needle in hay` on lists of characters. -/
def infixCheck (needle : List Char) : List Char → Bool
  | [] => decide (needle = [])
  | c :: rest => needle.isPrefixOf (c :: rest) || infixCheck needle (rest)

/-- Model of the Python substring test `needle in hay` on strings. -/
def strContains (hay needle : String) : Bool :=
  infixCheck needle.toList hay.toList

/-- Whitespace characters stripped by Python `str.strip()`. -/
def isPySpace (c : Char) : Bool :=
  c = ' ' || c = '\t' || c = '\n' || c = '\r'

/-- Model of Python `s.strip()`. -/
def pyStrip (s : String) : String :=
  String.mk (((s.toList.dropWhile isPySpace).reverse.dropWhile isPySpace).reverse)

/-- Model of Python slicing `s[:n]` (by characters). -/
def pyTake (s : String) (n : Nat) : String := String.mk (s.toList.take n)

/-- Model of Python `s.startswith(pre)`. -/
def pyStartsWith (s pre : String) : Bool := pre.toList.isPrefixOf s.toList

/-- Model of Python `len(s)`. -/
def pyLen (s : String) : Nat := s.toList.length

/-- Splits a character list at newline characters (Python `splitlines`). -/
def splitLinesAux : List Char → List (List Char)
  | [] => [[]]
  | c :: rest =>
    if c = '\n' then [] :: splitLinesAux rest
    else
      match splitLinesAux rest with
      | [] => [[c]]
      | l :: ls => (c :: l) :: ls

/-- Model of Python `s.splitlines()` (newline-only variant; a trailing final
newline produces a final empty piece that the callers discard anyway). -/
def pySplitLines (s : String) : List String :=
  (splitLinesAux s.toList).map (fun cs => String.mk cs)

/-- Model of Python `" ".join(xs)`. -/
def joinSpace : List String → String
  | [] => ""
  | [s] => s
  | s :: rest => s ++ " " ++ joinSpace rest

/-- Characters matched by the regex `[a-z0-9]+` used by `_tokens`, `_tokenize`
and `_keywords` in the source. -/
def isTokChar (c : Char) : Bool :=
  (97 ≤ c.toNat && c.toNat ≤ 122) || (48 ≤ c.toNat && c.toNat ≤ 57)

/-- Scanner for the matches of the regex `[a-z0-9]+` over a character list;
`cur` is the (reversed) run currently being read. -/
def tokenRunsAux : List Char → List Char → List (List Char)
  | cur, [] => if cur.isEmpty then [] else [cur.reverse]
  | cur, c :: rest =>
    if isTokChar c then tokenRunsAux (c :: cur) rest
    else if cur.isEmpty then tokenRunsAux [] rest
    else cur.reverse :: tokenRunsAux [] rest

/-- Maximal runs of `[a-z0-9]` characters, i.e. the matches of the regex
`[a-z0-9]+` (`re.findall`) over a character list. -/
def tokenRuns (l : List Char) : List (List Char) :=
  tokenRunsAux [] l

/-- Model of `re.findall(r"[a-z0-9]+", s.lower())`: the token list of a
string. -/
def tokenList (s : String) : List String :=
  (tokenRuns (pyLower s).toList).map (fun cs => String.mk cs)

/-- Model of `_tokens` in `app/rag/retrieve.py`: the tokens of a string as a
Python `set`. -/
def tokens (s : String) : Finset String :=
  (tokenList s).toFinset

/-- The hardcoded bonus vocabulary of `Retriever._keyword_boost`. -/
def bonus_terms : Finset String :=
  {"within", "eligible", "refund", "days", "window"}

/-- Model of `Retriever._keyword_boost` in `app/rag/retrieve.py`. -/
def keyword_boost (query text : String) : ℚ :=
  let q := tokens query
  let t := tokens text
  if q.card = 0 ∨ t.card = 0 then 0
  else
    let overlap : ℚ := ((q ∩ t).card : ℚ) / ((max 1 q.card : ℕ) : ℚ)
    let bonus : ℚ := 5 / 100 * (((q ∪ bonus_terms) ∩ t).card : ℚ)
    if strContains (pyLower query) "refund" = true ∧ strContains (pyLower text) "refund" = true then
      overlap + bonus + 2 / 10
    else
      overlap + bonus

/-- Chunk metadata as stored in the index and read by `filter_results`,
`ask_rag` and `ask_rag_stream` (`doc_id` and `section_path` are always
present on ingested chunks; `category` and `applies_to` may be absent). -/
structure Meta where
  doc_id : String
  category : Option String
  applies_to : Option String
  section_path : String
deriving DecidableEq, Repr

/-- A merged retrieval candidate after step 3 of `Retriever.search`
(fields `chunk_id`, `text`, `metadata`, `vec_score`, `bm25_norm`), extended
with the `keyword_boost` and `final_score` fields attached in steps 4-5. -/
structure RankedCand where
  chunk_id : String
  text : String
  metadata : Meta
  vec_score : ℚ
  bm25_norm : ℚ
  keyword_boost : ℚ
  final_score : ℚ
deriving DecidableEq, Repr

instance : Inhabited RankedCand :=
  ⟨{ chunk_id := "", text := "", metadata := ⟨"", none, none, ""⟩,
     vec_score := 0, bm25_norm := 0, keyword_boost := 0, final_score := 0 }⟩

/-- Steps 4-5 of `Retriever.search`: attach the keyword boost and the fused
`final_score` (the code also mirrors it into `r["score"]`; `final_score`
plays both roles here). -/
def fuse_scores (query : String) (r : RankedCand) : RankedCand :=
  let kb := keyword_boost query r.text
  { r with
    keyword_boost := kb,
    final_score := 55 / 100 * r.vec_score + 30 / 100 * r.bm25_norm + 15 / 100 * kb }

/-- Modelled from the spec (§4.1 step 5), for comparison with `fuse_scores`:
the fused score with the additional flat +0.08 bonus whenever the
candidate's `section_path` contains "eligibility" case-insensitively.  No
such bonus exists in `Retriever.search`. -/
def spec_final_score (query : String) (r : RankedCand) : ℚ :=
  let base := 55 / 100 * r.vec_score + 30 / 100 * r.bm25_norm
    + 15 / 100 * keyword_boost query r.text
  if strContains (pyLower r.metadata.section_path) "eligibility" = true then
    base + 8 / 100
  else base

/-- Step 6 of `Retriever.search`:
`out.sort(key=lambda x: x["final_score"], reverse=True)` — Python's stable
sort in descending `final_score` order. -/
def sort_by_final_score (out : List RankedCand) : List RankedCand :=
  out.mergeSort (fun a b => decide (b.final_score ≤ a.final_score))

/-- Steps 6 of `Retriever.search` including the truncation `out[:top_k]`. -/
def search_rank (top_k : Nat) (out : List RankedCand) : List RankedCand :=
  (sort_by_final_score out).take top_k

/-- The stop-word set `_STOPWORDS` of `app/main.py`. -/
def stopwords : List String :=
  ["the", "a", "an", "and", "or", "to", "for", "of", "in", "on", "with", "is", "are",
   "do", "does", "how", "what", "when", "where", "why", "can", "i", "we", "you",
   "your", "our", "it", "this", "that"]

/-- Model of `_keywords` in `app/main.py`: meaningful question tokens (length
at least 4, not a stop word), as a Python `set` (deduplicated). -/
def keywords (text : String) : List String :=
  ((tokenList text).filter (fun t => 4 ≤ pyLen t && !(stopwords.contains t))).dedup

/-- Model of `_evidence_mentions_question` in `app/main.py`. -/
def evidence_mentions_question (question : String) (results : List RankedCand) : Bool :=
  let qk := keywords question
  if qk.isEmpty then true
  else
    let evidence_text := pyLower (joinSpace ((results.take 3).map (fun r => r.text)))
    qk.any (fun k => strContains evidence_text k)

/-- The fixed refusal sentence used throughout `app/main.py` and
`app/rag/generate.py`. -/
def idkSentence : String :=
  "I don" ++ apos ++ "t know based on the provided documents."

/-- Model of `_is_idk` in `app/main.py`. -/
def is_idk (text : String) : Bool :=
  let t := pyLower (pyStrip text)
  strContains t ("don" ++ apos ++ "t know") || strContains t "do not know"

/-- Model of `infer_category` in `app/main.py`. -/
def infer_category (question : String) : Option String :=
  let q := pyLower question
  if ["refund", "billing", "plan", "pricing", "downgrade", "upgrade", "past due"].any
      (fun k => strContains q k) then some "billing"
  else if ["privacy", "retention", "delete", "gdpr", "data"].any
      (fun k => strContains q k) then some "privacy"
  else if ["support", "response time", "sla", "ticket"].any
      (fun k => strContains q k) then some "support"
  else if ["incident", "outage", "status", "downtime"].any
      (fun k => strContains q k) then some "operations"
  else none

/-- Python truthiness of an optional string (`None` and `""` are falsy). -/
def truthy : Option String → Bool
  | none => false
  | some s => !(s.isEmpty)

/-- Model of `filter_results` in `app/main.py`. -/
def filter_results (results : List RankedCand) (category : Option String)
    (applies_to : Option String) : List RankedCand :=
  results.filter (fun r =>
    let meta := r.metadata
    (if truthy category then decide (meta.category = category) else true) &&
    (if truthy applies_to then
      let allowed := (meta.applies_to).getD ""
      strContains (pyLower allowed) (pyLower ((applies_to).getD ""))
    else true))

/-- Model of `_pick_best_chunk_for_question` in `app/main.py`. -/
def pick_best_chunk_for_question (question : String) (results : List RankedCand) :
    Option RankedCand :=
  let q := pyLower question
  let h1 :=
    if strContains q "refund" &&
        (strContains q "window" || strContains q "how long" || strContains q "eligible") then
      results.find? (fun r =>
        let t := pyLower r.text
        strContains t "eligible" && strContains t "within" && strContains t "days")
    else none
  match h1 with
  | some r => some r
  | none =>
    let h2 :=
      if strContains q "request a refund" ||
          (strContains q "how do i" && strContains q "refund") then
        results.find? (fun r => strContains (pyLower r.text) "refund request")
      else none
    match h2 with
    | some r => some r
    | none => results.head?

/-- Model of `_extract_answer_from_chunk` in `app/main.py`. -/
def extract_answer_from_chunk (chunk_text : String) (max_chars : Nat := 220) : String :=
  let lines := ((pySplitLines chunk_text).map pyStrip).filter (fun ln => !(ln.isEmpty))
  if lines.isEmpty then ""
  else
    let bullets := lines.filter (fun ln => pyStartsWith ln "-")
    match bullets with
    | [] => pyStrip (pyTake lines.headI max_chars)
    | b0 :: btl =>
      let out := if !(btl.isEmpty) && pyLen b0 < 120 then b0 ++ " " ++ btl.headI else b0
      pyStrip (pyTake out max_chars)

/-- The `Citation` response model of `app/rag/schemas.py`. -/
structure Citation where
  chunk_id : String
  doc_id : String
  section_path : String
  score : ℚ
  snippet : String
deriving DecidableEq, Repr

/-- Construction of one citation entry in `ask_rag` (`app/main.py`,
lines 235-244). -/
def mkCitation (r : RankedCand) : Citation :=
  { chunk_id := r.chunk_id,
    doc_id := r.metadata.doc_id,
    section_path := r.metadata.section_path,
    score := r.final_score,
    snippet := pyTake r.text 220 }

/-- The dictionary returned by `generate_answer` in `app/rag/generate.py`:
`final_answer`, `used_chunk_ids`, and the optional `warning` key. -/
structure GenReturn where
  final_answer : String
  used_chunk_ids : List String
  warning : Option String
deriving DecidableEq, Repr

/-- Outcome of the fallible part of `generate_answer`: either some exception
(HTTP error, bad status, JSON decoding or `_extract_json` failure) carrying
the exception class name, or the parsed model output — the `final_answer`
value and the `used_chunk_ids` value (`none` when it was not a list). -/
inductive GenAttempt where
  | exn (className : String)
  | ok (final_answer_raw : String) (used_raw : Option (List String))
deriving DecidableEq, Repr

/-- Model of `generate_answer` in `app/rag/generate.py` (lines 70-97): the
`try` body after the HTTP/JSON outcome `attempt` is fixed, with the
`except` clause folding every failure — including an empty `final_answer`,
raised as a `ValueError` — into the refusal dictionary with a `warning`. -/
def generate_answer (allowed_ids : List String) (attempt : GenAttempt) : GenReturn :=
  match attempt with
  | .exn className =>
    { final_answer := idkSentence, used_chunk_ids := [],
      warning := some ("generation_failed: " ++ className) }
  | .ok fa_raw used_raw =>
    let final_answer := pyStrip fa_raw
    let used := (used_raw.getD []).filter (fun x => allowed_ids.contains x)
    if final_answer.isEmpty then
      { final_answer := idkSentence, used_chunk_ids := [],
        warning := some ("generation_failed: ValueError") }
    else
      { final_answer := final_answer, used_chunk_ids := used, warning := none }

/-- The response of `/rag/ask` (`AskRagResponse` plus the two
`retrieval_debug` entries the claims are about: `reason` and `top_score`). -/
structure RagResponse where
  question : String
  final_answer : String
  citations : List Citation
  debug_reason : Option String
  debug_top_score : ℚ
deriving DecidableEq, Repr

/-- The expression `results[0]["score"] if results else 0.0` of
`app/main.py` line 154. -/
def top_score_of : List RankedCand → ℚ
  | [] => 0
  | r :: _ => r.final_score

/-- The candidate selection for citations (`app/main.py` lines 227-233):
candidates of `results` whose id is in `used`, the top candidate as a
safety net when none matched, and the top candidate alone when `used` is
empty. -/
def select_citations (results : List RankedCand) (used : List String) : List RankedCand :=
  if !(used.isEmpty) then
    let sel := results.filter (fun r => used.contains r.chunk_id)
    if sel.isEmpty then [results.headI] else sel
  else [results.headI]

/-- Model of the body of `ask_rag` (`app/main.py` lines 154-266) after
retrieval and filtering: `results` is the filtered ranked list passed to the
gate and to generation, `results2` the list re-bound from the cache / the
repeated retrieval (lines 208-218), and `gen` the generation outcome.
Note line 221 re-binds `used` from `gen` after the fallback branch computed
its own `used` set. -/
def askRagCore (q : String) (top_k : Nat) (results results2 : List RankedCand)
    (gen : GenReturn) : RagResponse :=
  let top_score : ℚ := top_score_of results
  if results = [] ∨ top_score < 45 / 100 then
    { question := q, final_answer := idkSentence, citations := [],
      debug_reason := some "low_retrieval_confidence", debug_top_score := top_score }
  else if !(evidence_mentions_question q results) then
    { question := q, final_answer := idkSentence, citations := [],
      debug_reason := some "topic_mismatch", debug_top_score := top_score }
  else
    let final_answer0 := pyStrip gen.final_answer
    let fa_used : String × List String :=
      if (gen.warning).isSome then
        match pick_best_chunk_for_question q results with
        | some best => (extract_answer_from_chunk best.text, [best.chunk_id])
        | none => (idkSentence, [])
      else (final_answer0, gen.used_chunk_ids)
    let final_answer := fa_used.1
    let used := gen.used_chunk_ids
    let citations :=
      if is_idk final_answer then ([] : List Citation)
      else ((select_citations results2 used).take 2).map mkCitation
    { question := q, final_answer := final_answer, citations := citations,
      debug_reason := none, debug_top_score := top_score }

/-- The request attributes consumed by the body of `ask_rag`
(`app/main.py`): `req.question`, `req.top_k`, `req.category`,
`req.applies_to`. -/
structure AskReq where
  question : String
  top_k : Nat
  category : Option String
  applies_to : Option String
deriving DecidableEq, Repr

/-- The effective category of a request (`app/main.py` line 151):
`req.category or infer_category(req.question)` with Python truthiness. -/
def effective_category (req : AskReq) : Option String :=
  if truthy req.category then req.category else infer_category req.question

/-- Model of `ask_rag` (`app/main.py`): `retrieve` abstracts
`retriever.search`, `cache` holds the `retrieval_cache` entry under this
request's key if present.  On a cache miss the filtered retrieval is
recomputed (lines 208-218). -/
def askRag (retrieve : String → Nat → List RankedCand)
    (cache : Option (List RankedCand)) (req : AskReq) (gen : GenReturn) : RagResponse :=
  let results := filter_results (retrieve req.question req.top_k)
    (effective_category req) req.applies_to
  let results2 :=
    match cache with
    | some cached => cached
    | none => filter_results (retrieve req.question req.top_k)
        (effective_category req) req.applies_to
  askRagCore req.question req.top_k results results2 gen

/-- Citation pre-selection of `ask_rag_stream` (`app/main.py` lines
283-291): the top candidate, plus the second one when it shares `doc_id` or
`category` with the top one. -/
def streamSelected (results : List RankedCand) : List RankedCand :=
  match results with
  | [] => []
  | top1 :: rest =>
    match rest with
    | [] => [top1]
    | top2 :: _ =>
      let same_doc := top2.metadata.doc_id = top1.metadata.doc_id
      let same_category := top2.metadata.category = top1.metadata.category
      if same_doc ∨ same_category then [top1, top2] else [top1]

/-- The field names declared on `AskRagRequest` in `app/rag/schemas.py`. -/
def askRagRequestFields : List String := ["question", "top_k"]

/-- The attribute names the `ask_rag` handler reads from its request object
(`app/main.py` lines 149-152). -/
def askRagHandlerAttrReads : List String :=
  ["question", "top_k", "category", "applies_to"]

/-- Pydantic-style attribute lookup: accessing an attribute that is not a
declared field of the model raises `AttributeError`, modelled as `none`. -/
def modelGetattr (fields : List String) (name : String) : Option String :=
  if fields.contains name then some name else none

/-! ### Concrete fixtures used by the counterexamples and witnesses -/

/-- A query of 26 distinct single-letter tokens. -/
def q26 : String := "a b c d e f g h i j k l m n o p q r s t u v w x y z"

/-- Metadata of a procedural chunk of the refund policy document. -/
def metaA : Meta :=
  { doc_id := "refund-policy", category := some "billing",
    applies_to := some "Pro, Team", section_path := "Refund Policy > How to Request" }

/-- Metadata of the eligibility chunk of the refund policy document. -/
def metaB : Meta :=
  { doc_id := "refund-policy", category := some "billing",
    applies_to := some "Pro, Team", section_path := "Refund Policy > Eligibility" }

/-- Top-ranked candidate: a procedural chunk. -/
def candA : RankedCand :=
  { chunk_id := "refund-policy::c0001",
    text := "Contact support to get help with your account.",
    metadata := metaA, vec_score := 1, bm25_norm := 1, keyword_boost := 0,
    final_score := 1 }

/-- Second-ranked candidate: the eligibility chunk. -/
def candB : RankedCand :=
  { chunk_id := "refund-policy::c0000",
    text := "Eligible for refund within 14 days of purchase.",
    metadata := metaB, vec_score := 1, bm25_norm := 1, keyword_boost := 0,
    final_score := 1 }

/-- A candidate with `final_score` 0, below the 0.45 gate threshold. -/
def candLow : RankedCand :=
  { chunk_id := "misc::c0009", text := "Unrelated text.",
    metadata := metaA, vec_score := 0, bm25_norm := 0, keyword_boost := 0,
    final_score := 0 }

/-- A merged candidate in an eligibility section, with a query sharing no
token with its text. -/
def candElig : RankedCand :=
  { chunk_id := "refund-policy::c0000", text := "hello",
    metadata := metaB, vec_score := 1, bm25_norm := 0, keyword_boost := 0,
    final_score := 0 }

/-- A refund-window question. -/
def qWindow : String := "How long is the refund window?"

/-- A failed generation outcome, as returned by `generate_answer` when the
HTTP call raises. -/
def genFail : GenReturn :=
  { final_answer := idkSentence, used_chunk_ids := [],
    warning := some "generation_failed: ConnectError" }

/-- A successful generation outcome with empty `used_chunk_ids`. -/
def genOkEmpty : GenReturn :=
  { final_answer := "The refund window is 14 days.", used_chunk_ids := [],
    warning := none }

/-- A successful generation outcome whose answer text the `_is_idk`
predicate classifies as a refusal, but which differs from the fixed
refusal sentence. -/
def genOkRefusal : GenReturn :=
  { final_answer := "Sorry, I do not know anything about that topic.",
    used_chunk_ids := ["refund-policy::c0000"], warning := none }

/-! ### Claims -/

/-- C1, counterexample: on the candidate `candElig`, whose `section_path`
"Refund Policy > Eligibility" contains "eligibility" case-insensitively,
`Retriever.search` computes `final_score = 0.55*1 + 0.30*0 + 0.15*0 = 0.55`
with no +0.08 bonus, differing from the spec formula which yields 0.63. -/
theorem C1_counterexample :
    strContains (pyLower candElig.metadata.section_path) "eligibility" = true ∧
    (fuse_scores "zzzz" candElig).final_score = 55 / 100 ∧
    spec_final_score "zzzz" candElig = 63 / 100 ∧
    (fuse_scores "zzzz" candElig).final_score ≠ spec_final_score "zzzz" candElig := by
  have hkb : keyword_boost "zzzz" "hello" = 0 := by
    have hc1 : (tokens "zzzz").card = 1 := by decide
    have hc2 : (tokens "zzzz" ∩ tokens "hello").card = 0 := by decide
    have hc3 : ((tokens "zzzz" ∪ bonus_terms) ∩ tokens "hello").card = 0 := by decide
    have hr : strContains (pyLower "zzzz") "refund" = false := by decide
    simp only [keyword_boost, hc1, hc2, hc3, hr]
    norm_num
  have h1 : strContains (pyLower candElig.metadata.section_path) "eligibility" = true := by decide
  have h2 : (fuse_scores "zzzz" candElig).final_score = 55 / 100 := by
    show 55 / 100 * candElig.vec_score + 30 / 100 * candElig.bm25_norm
      + 15 / 100 * keyword_boost "zzzz" candElig.text = 55 / 100
    rw [show candElig.text = "hello" from rfl, hkb]
    norm_num [candElig]
  have h3 : spec_final_score "zzzz" candElig = 63 / 100 := by
    simp only [spec_final_score, h1, if_pos]
    rw [show candElig.text = "hello" from rfl, hkb]
    norm_num [candElig]
  refine ⟨h1, h2, h3, ?_⟩
  rw [h2, h3]
  norm_num

/-- C1, amended: for every query and merged candidate the fused score is
exactly `0.55*vec_score + 0.30*lexical_norm + 0.15*keyword_boost`; no
section-path dependent bonus is applied (the score is invariant under
changing `section_path`). -/
theorem C1_fusion_formula (query : String) (r : RankedCand) :
    (fuse_scores query r).final_score =
      55 / 100 * r.vec_score + 30 / 100 * r.bm25_norm
        + 15 / 100 * keyword_boost query r.text ∧
    ∀ sp : String,
      (fuse_scores query
        { r with metadata := { r.metadata with section_path := sp } }).final_score =
      (fuse_scores query r).final_score :=
  ⟨rfl, fun _ => rfl⟩

/-- C9, counterexample: for a query of 26 distinct tokens all present in the
candidate text, `_keyword_boost` returns 1 + 0.05*26 = 2.3, well above the
claimed upper bound of about 1.3. -/
theorem C9_counterexample :
    keyword_boost q26 q26 = 23 / 10 ∧ ¬ (keyword_boost q26 q26 ≤ 13 / 10) := by
  have hval : keyword_boost q26 q26 = 23 / 10 := by
    have hc1 : (tokens q26).card = 26 := by decide
    have hc2 : (tokens q26 ∩ tokens q26).card = 26 := by decide
    have hc3 : ((tokens q26 ∪ bonus_terms) ∩ tokens q26).card = 26 := by decide
    have hr : strContains (pyLower q26) "refund" = false := by decide
    simp only [keyword_boost, hc1, hc2, hc3, hr]
    norm_num
  exact ⟨hval, by rw [hval]; norm_num⟩

/-- C9, amended: `_keyword_boost` is always non-negative, but it is not
bounded by ~1.3: its least uniform upper bound grows linearly with the
number of distinct query tokens, `1.2 + 0.05*(|query tokens| + 5)`. -/
theorem C9_keyword_boost_bounds (query text : String) :
    0 ≤ keyword_boost query text ∧
    keyword_boost query text ≤ 12 / 10 + 5 / 100 * (((tokens query).card : ℚ) + 5) := by
  have hqpos : (0:ℚ) < ((max 1 (tokens query).card : ℕ) : ℚ) := by
    exact_mod_cast Nat.lt_of_lt_of_le Nat.zero_lt_one (Nat.le_max_left 1 _)
  have hov0 : (0:ℚ) ≤ ((tokens query ∩ tokens text).card : ℚ) / ((max 1 (tokens query).card : ℕ) : ℚ) :=
    div_nonneg (by positivity) hqpos.le
  have hov1 : ((tokens query ∩ tokens text).card : ℚ) / ((max 1 (tokens query).card : ℕ) : ℚ) ≤ 1 := by
    apply div_le_one_of_le _ hqpos.le
    exact_mod_cast Nat.le_trans (Finset.card_le_card Finset.inter_subset_left) (Nat.le_max_right 1 _)
  have hbcard : ((tokens query ∪ bonus_terms) ∩ tokens text).card ≤ (tokens query).card + 5 := by
    calc ((tokens query ∪ bonus_terms) ∩ tokens text).card
        ≤ (tokens query ∪ bonus_terms).card := Finset.card_le_card Finset.inter_subset_left
      _ ≤ (tokens query).card + bonus_terms.card := Finset.card_union_le _ _
      _ = (tokens query).card + 5 := by rw [show bonus_terms.card = 5 from by decide]
  have hbn0 : (0:ℚ) ≤ 5 / 100 * (((tokens query ∪ bonus_terms) ∩ tokens text).card : ℚ) := by
    positivity
  have hbn1 : 5 / 100 * (((tokens query ∪ bonus_terms) ∩ tokens text).card : ℚ) ≤
      5 / 100 * (((tokens query).card : ℚ) + 5) := by
    have h : (((tokens query ∪ bonus_terms) ∩ tokens text).card : ℚ) ≤ ((tokens query).card : ℚ) + 5 := by
      exact_mod_cast hbcard
    linarith
  simp only [keyword_boost]
  split_ifs with h1 h2
  · constructor
    · exact le_refl 0
    · positivity
  · constructor <;> linarith
  · constructor <;> linarith



/-- C3: the claim fails because `AskRagRequest` in `app/rag/schemas.py`
declares only `question` and `top_k`, while the `ask_rag` handler reads
`req.category` and `req.applies_to` (`app/main.py` lines 151-152); that
attribute access has no declared field to resolve to (an `AttributeError`
on every request). -/
theorem C3_request_schema_missing_fields :
    modelGetattr askRagRequestFields "category" = none ∧
    modelGetattr askRagRequestFields "applies_to" = none ∧
    askRagHandlerAttrReads.any (fun n => !(askRagRequestFields.contains n)) = true := by
  decide


/-- C10: `generate_answer` is total over the outcome of its fallible part:
the returned dictionary carries a `warning` key exactly when the HTTP/JSON
attempt raised or the parsed `final_answer` was empty after stripping, and
in that case `final_answer` is the fixed refusal sentence and
`used_chunk_ids` is empty. -/
theorem C10_generate_answer_total (allowed_ids : List String) (attempt : GenAttempt) :
    ((generate_answer allowed_ids attempt).warning.isSome = true ↔
      (∃ n, attempt = GenAttempt.exn n) ∨
      ∃ fa u, attempt = GenAttempt.ok fa u ∧ (pyStrip fa).isEmpty = true) ∧
    ((generate_answer allowed_ids attempt).warning.isSome = true →
      (generate_answer allowed_ids attempt).final_answer = idkSentence ∧
      (generate_answer allowed_ids attempt).used_chunk_ids = []) := by
  cases attempt with
  | exn n => simp [generate_answer]
  | ok fa u =>
    by_cases h : (pyStrip fa).isEmpty
    · simp [generate_answer, h]
    · simp [generate_answer, h]


/-- C10, witness: a concrete failed attempt (a `ConnectError`). -/
theorem C10_witness :
    (generate_answer ["refund-policy::c0000"] (GenAttempt.exn "ConnectError")).final_answer = idkSentence ∧
    (generate_answer ["refund-policy::c0000"] (GenAttempt.exn "ConnectError")).used_chunk_ids = [] :=
  (C10_generate_answer_total ["refund-policy::c0000"] (GenAttempt.exn "ConnectError")).2 (by decide)


/-- C8: the ranked output of `Retriever.search` is sorted non-increasing by
`final_score`, has length at most `top_k`, and the sort is stable: two
candidates tied on `final_score` keep their original fetch order. -/
theorem C8_ranked_output (top_k : Nat) (out : List RankedCand) :
    List.Pairwise (fun a b => b.final_score ≤ a.final_score) (search_rank top_k out) ∧
    (search_rank top_k out).length ≤ top_k ∧
    (∀ a b : RankedCand, List.Sublist [a, b] out → a.final_score = b.final_score →
      List.Sublist [a, b] (sort_by_final_score out)) := by
  have htrans : ∀ a b c : RankedCand,
      (fun a b : RankedCand => decide (b.final_score ≤ a.final_score)) a b →
      (fun a b : RankedCand => decide (b.final_score ≤ a.final_score)) b c →
      (fun a b : RankedCand => decide (b.final_score ≤ a.final_score)) a c := by
    intro a b c hab hbc
    simp only [decide_eq_true_eq] at *
    exact le_trans hbc hab
  have htotal : ∀ a b : RankedCand,
      ((fun a b : RankedCand => decide (b.final_score ≤ a.final_score)) a b ||
       (fun a b : RankedCand => decide (b.final_score ≤ a.final_score)) b a) := by
    intro a b
    simp only [decide_eq_true_eq, Bool.or_eq_true]
    exact le_total b.final_score a.final_score
  refine ⟨?_, ?_, ?_⟩
  · have hs := List.sorted_mergeSort htrans htotal out
    have hs' : List.Pairwise (fun a b : RankedCand => b.final_score ≤ a.final_score)
        (sort_by_final_score out) := by
      refine hs.imp ?_
      intro a b h
      simpa using h
    exact hs'.sublist (List.take_sublist _ _)
  · simpa [search_rank] using List.length_take_le top_k (sort_by_final_score out)
  · intro a b hsub heq
    exact List.pair_sublist_mergeSort htrans htotal (by simp [heq]) hsub


/-- Three candidates, the last two tied on `final_score`. -/
def cx8 : RankedCand := { candA with chunk_id := "x8", final_score := 2 }
def cy8 : RankedCand := { candA with chunk_id := "y8", final_score := 1 }
def cz8 : RankedCand := { candB with chunk_id := "z8", final_score := 1 }


/-- C4, counterexample: an empty filtered result set is refused with
`top_score = 0.0` but with reason `"low_retrieval_confidence"`, not
`"no_results"`, and that reason is identical to the one issued when a top
candidate exists with a score below 0.45 — the two refusals are not
distinct. -/
theorem C4_counterexample :
    (askRagCore "unrelated question" 5 [] [] genOkEmpty).debug_reason
        = some "low_retrieval_confidence" ∧
    (askRagCore "unrelated question" 5 [] [] genOkEmpty).debug_top_score = 0 ∧
    (askRagCore "unrelated question" 5 [] [] genOkEmpty).debug_reason ≠ some "no_results" ∧
    (askRagCore "unrelated question" 5 [candLow] [candLow] genOkEmpty).debug_reason
      = (askRagCore "unrelated question" 5 [] [] genOkEmpty).debug_reason := by
  have h1 : askRagCore "unrelated question" 5 [] [] genOkEmpty
      = { question := "unrelated question", final_answer := idkSentence, citations := [],
          debug_reason := some "low_retrieval_confidence", debug_top_score := 0 } := by
    simp only [askRagCore]
    rw [if_pos (Or.inl trivial)]
    decide
  have h2 : (askRagCore "unrelated question" 5 [candLow] [candLow] genOkEmpty).debug_reason
      = some "low_retrieval_confidence" := by
    simp only [askRagCore]
    rw [if_pos (Or.inr (by rw [show top_score_of [candLow] = 0 from by decide]; norm_num))]
  rw [h1, h2]
  refine ⟨rfl, rfl, by decide, rfl⟩

/-- C4, amended: an empty filtered result set is refused with reason
`"low_retrieval_confidence"` and `top_score = 0.0`; this is the same (not a
distinct) reason as the refusal issued when the top candidate's score is
below the 0.45 threshold. -/
theorem C4_empty_results_refusal (q : String) (k : Nat) (rs2 : List RankedCand)
    (gen : GenReturn) :
    (askRagCore q k [] rs2 gen).debug_reason = some "low_retrieval_confidence" ∧
    (askRagCore q k [] rs2 gen).debug_top_score = 0 ∧
    (askRagCore q k [] rs2 gen).final_answer = idkSentence ∧
    (askRagCore q k [] rs2 gen).citations = [] ∧
    ∀ (r : RankedCand) (rest rs2' : List RankedCand),
      r.final_score < 45 / 100 →
      (askRagCore q k (r :: rest) rs2' gen).debug_reason = some "low_retrieval_confidence" := by
  have h1 : askRagCore q k [] rs2 gen
      = { question := q, final_answer := idkSentence, citations := [],
          debug_reason := some "low_retrieval_confidence", debug_top_score := 0 } := by
    simp only [askRagCore]
    rw [if_pos (Or.inl trivial)]
    rfl
  rw [h1]
  refine ⟨rfl, rfl, rfl, rfl, ?_⟩
  intro r rest rs2' hlt
  simp only [askRagCore]
  rw [if_pos (Or.inr (by rw [show top_score_of (r :: rest) = r.final_score from rfl]; exact hlt))]

/-- C4, witness: the empty-result refusal and the low-score refusal (a
candidate with score 0) both carry the `"low_retrieval_confidence"`
reason. -/
theorem C4_witness :
    (askRagCore qWindow 3 [] [candA] genFail).debug_reason = some "low_retrieval_confidence" ∧
    candLow.final_score < 45 / 100 ∧
    (askRagCore qWindow 3 [candLow] [] genFail).debug_reason = some "low_retrieval_confidence" := by
  have hlt : candLow.final_score < 45 / 100 := by
    rw [show candLow.final_score = 0 from rfl]; norm_num
  exact ⟨(C4_empty_results_refusal qWindow 3 [candA] genFail).1, hlt,
    (C4_empty_results_refusal qWindow 3 [] genFail).2.2.2.2 candLow [] [] hlt⟩

/-- C2: the extractive fallback picks `candB` (the eligible/within/days
rule) and its text becomes the answer, but the citation emitted is for the
top-ranked `candA`, not for `candB`: line 221 of `app/main.py` re-binds
`used` from the failed generation's empty `used_chunk_ids`, discarding the
fallback's `used = {best["chunk_id"]}` set at line 197 despite the comment
"force citations to match the fallback evidence". -/
theorem C2_fallback_citation_overwritten :
    pick_best_chunk_for_question qWindow [candA, candB] = some candB ∧
    candB.chunk_id ≠ candA.chunk_id ∧
    (askRagCore qWindow 5 [candA, candB] [candA, candB] genFail).final_answer
      = extract_answer_from_chunk candB.text ∧
    (askRagCore qWindow 5 [candA, candB] [candA, candB] genFail).citations.map
      (fun c => c.chunk_id) = [candA.chunk_id] := by
  have hresp : askRagCore qWindow 5 [candA, candB] [candA, candB] genFail
      = { question := qWindow,
          final_answer := extract_answer_from_chunk candB.text,
          citations := [mkCitation candA],
          debug_reason := none, debug_top_score := 1 } := by
    simp only [askRagCore]
    rw [if_neg (by
      push_neg
      exact ⟨by simp, by rw [show top_score_of [candA, candB] = 1 from by decide]; norm_num⟩)]
    rw [if_neg (by decide)]
    decide
  rw [hresp]
  exact ⟨by decide, by decide, rfl, by decide⟩

/-- C8, witness: the tied pair keeps its input order in the sorted list. -/
theorem C8_witness :
    List.Sublist [cy8, cz8] (sort_by_final_score [cx8, cy8, cz8]) :=
  (C8_ranked_output 2 [cx8, cy8, cz8]).2.2 cy8 cz8
    ((List.Sublist.refl [cy8, cz8]).cons cx8) rfl

/-- C5, counterexample: a successful generation with empty `used_chunk_ids`
over two candidates sharing `doc_id` yields exactly one citation (the top
candidate); the second candidate is not cited even though it shares
`doc_id`, contradicting the claimed iff. -/
theorem C5_counterexample :
    genOkEmpty.warning = none ∧ genOkEmpty.used_chunk_ids = [] ∧
    candB.metadata.doc_id = candA.metadata.doc_id ∧
    (askRagCore qWindow 5 [candA, candB] [candA, candB] genOkEmpty).citations.map
      (fun c => c.chunk_id) = [candA.chunk_id] ∧
    (askRagCore qWindow 5 [candA, candB] [candA, candB] genOkEmpty).citations.length = 1 := by
  have hresp : askRagCore qWindow 5 [candA, candB] [candA, candB] genOkEmpty
      = { question := qWindow, final_answer := "The refund window is 14 days.",
          citations := [mkCitation candA], debug_reason := none, debug_top_score := 1 } := by
    simp only [askRagCore]
    rw [if_neg (by
      push_neg
      exact ⟨by simp, by rw [show top_score_of [candA, candB] = 1 from by decide]; norm_num⟩)]
    rw [if_neg (by decide)]
    decide
  rw [hresp]
  exact ⟨rfl, rfl, by decide, by decide, rfl⟩

/-- C5, amended: in the non-streaming endpoint a successful generation with
empty `used_chunk_ids` cites exactly the top-ranked candidate, never the
second; the share-`doc_id`-or-`category` proximity rule with a 2-citation
cap exists only in the streaming endpoint (`ask_rag_stream`), where the
second candidate is included iff it shares `doc_id` or `category` with the
top one. -/
theorem C5_citation_selection :
    (∀ (q : String) (k : Nat) (results : List RankedCand) (gen : GenReturn),
      results ≠ [] →
      ¬ top_score_of results < 45 / 100 →
      evidence_mentions_question q results = true →
      gen.warning = none →
      gen.used_chunk_ids = [] →
      is_idk (pyStrip gen.final_answer) = false →
      (askRagCore q k results results gen).citations = [mkCitation results.headI]) ∧
    (∀ (top1 top2 : RankedCand) (rest : List RankedCand),
      (streamSelected (top1 :: top2 :: rest)).length ≤ 2 ∧
      (streamSelected (top1 :: top2 :: rest) = [top1, top2] ↔
        (top2.metadata.doc_id = top1.metadata.doc_id ∨
         top2.metadata.category = top1.metadata.category)) ∧
      (¬ (top2.metadata.doc_id = top1.metadata.doc_id ∨
          top2.metadata.category = top1.metadata.category) →
        streamSelected (top1 :: top2 :: rest) = [top1])) := by
  constructor
  · intro q k results gen hne hscore hev hwarn hused hidk
    simp only [askRagCore]
    rw [if_neg (by push_neg; exact ⟨hne, not_lt.mp hscore⟩)]
    rw [if_neg (by simp [hev])]
    simp only [hwarn, Option.isSome_none, Bool.false_eq_true, if_false, hused, hidk,
      select_citations, List.isEmpty_nil, Bool.not_true, Bool.false_eq_true, if_false]
    simp [List.take, hidk]
  · intro top1 top2 rest
    by_cases h : top2.metadata.doc_id = top1.metadata.doc_id ∨
        top2.metadata.category = top1.metadata.category
    · refine ⟨?_, ?_, ?_⟩ <;> simp [streamSelected, h]
    · refine ⟨?_, ?_, ?_⟩ <;> simp [streamSelected, h]

/-- C5, witness: concrete non-streaming request where a successful
generation with empty `used_chunk_ids` cites exactly the top candidate. -/
theorem C5_witness :
    (askRagCore qWindow 5 [candA, candB] [candA, candB] genOkEmpty).citations
      = [mkCitation (([candA, candB] : List RankedCand).headI)] :=
  C5_citation_selection.1 qWindow 5 [candA, candB] genOkEmpty
    (by simp)
    (by rw [show top_score_of [candA, candB] = 1 from by decide]; norm_num)
    (by decide) rfl rfl (by decide)

/-- C7, counterexample: a generated answer that the `_is_idk` predicate
classifies as a refusal is returned verbatim — it differs from the fixed
refusal sentence — although its citation list is indeed empty. -/
theorem C7_counterexample :
    is_idk ((askRagCore qWindow 5 [candA, candB] [candA, candB] genOkRefusal).final_answer) = true ∧
    (askRagCore qWindow 5 [candA, candB] [candA, candB] genOkRefusal).final_answer ≠ idkSentence ∧
    (askRagCore qWindow 5 [candA, candB] [candA, candB] genOkRefusal).citations = [] := by
  have hresp : askRagCore qWindow 5 [candA, candB] [candA, candB] genOkRefusal
      = { question := qWindow,
          final_answer := "Sorry, I do not know anything about that topic.",
          citations := [], debug_reason := none, debug_top_score := 1 } := by
    simp only [askRagCore]
    rw [if_neg (by
      push_neg
      exact ⟨by simp, by rw [show top_score_of [candA, candB] = 1 from by decide]; norm_num⟩)]
    rw [if_neg (by decide)]
    decide
  rw [hresp]
  exact ⟨by decide, by decide, rfl⟩

/-- C7, amended: every refusal (any response whose final answer the
`_is_idk` predicate classifies as a refusal, which includes all gate
refusals) has an empty citation list, and every gate refusal — empty
result set, top score below 0.45, or failed topic-match check — carries
the fixed refusal sentence; but a generated answer classified as a refusal
is returned verbatim rather than being replaced by the fixed sentence. -/
theorem C7_refusal_empty_citations (q : String) (k : Nat)
    (results results2 : List RankedCand) (gen : GenReturn) :
    (is_idk ((askRagCore q k results results2 gen).final_answer) = true →
      (askRagCore q k results results2 gen).citations = []) ∧
    ((results = [] ∨ top_score_of results < 45 / 100 ∨
        evidence_mentions_question q results = false) →
      (askRagCore q k results results2 gen).final_answer = idkSentence ∧
      (askRagCore q k results results2 gen).citations = []) := by
  by_cases hg1 : results = [] ∨ top_score_of results < 45 / 100
  · constructor
    · intro _
      simp [askRagCore, if_pos hg1]
    · intro _
      simp [askRagCore, if_pos hg1, idkSentence]
  · have hne : results ≠ [] := fun h => hg1 (Or.inl h)
    by_cases hg2 : (!evidence_mentions_question q results) = true
    · constructor
      · intro _
        simp [askRagCore, if_neg hg1, hg2]
      · intro _
        simp [askRagCore, if_neg hg1, hg2, idkSentence]
    · constructor
      · intro hid
        simp only [askRagCore, if_neg hg1, if_neg hg2] at hid ⊢
        rw [if_pos hid]
      · intro h
        rcases h with h | h | h
        · exact absurd h hne
        · exact absurd (Or.inr h) hg1
        · exact absurd (by rw [h]; rfl) hg2

/-- C7, witness: a low-confidence gate refusal on a non-empty result set
(one candidate with score 0) carries the fixed sentence and no
citations. -/
theorem C7_witness :
    (askRagCore qWindow 2 [candLow] [candA] genOkRefusal).final_answer = idkSentence ∧
    (askRagCore qWindow 2 [candLow] [candA] genOkRefusal).citations = [] :=
  (C7_refusal_empty_citations qWindow 2 [candLow] [candA] genOkRefusal).2
    (Or.inr (Or.inl (by rw [show top_score_of [candLow] = 0 from by decide]; norm_num)))

/-- Head of a non-empty list is a member. -/
theorem headI_mem_of_ne_nil {α : Type} [Inhabited α] {l : List α} (h : l ≠ []) :
    l.headI ∈ l := by
  cases l with
  | nil => exact absurd rfl h
  | cons a t => exact List.mem_cons_self a t

/-- Every candidate selected for citation comes from the result list. -/
theorem select_citations_mem (results : List RankedCand) (used : List String)
    (hne : results ≠ []) : ∀ r ∈ select_citations results used, r ∈ results := by
  intro r hr
  simp only [select_citations] at hr
  split_ifs at hr with h1 h2
  · simp only [List.mem_singleton] at hr
    subst hr
    exact headI_mem_of_ne_nil hne
  · exact List.mem_of_mem_filter hr
  · simp only [List.mem_singleton] at hr
    subst hr
    exact headI_mem_of_ne_nil hne

/-- Citations of `askRagCore` (run with the citation-time result list equal
to the gated one) refer to candidates of the gated result list. -/
theorem askRagCore_citations_traceable (q : String) (k : Nat)
    (results : List RankedCand) (gen : GenReturn) :
    ∀ c ∈ (askRagCore q k results results gen).citations,
      c.chunk_id ∈ results.map (fun r => r.chunk_id) := by
  intro c hc
  by_cases hg1 : results = [] ∨ top_score_of results < 45 / 100
  · simp [askRagCore, if_pos hg1] at hc
  · have hne : results ≠ [] := fun h => hg1 (Or.inl h)
    by_cases hg2 : (!evidence_mentions_question q results) = true
    · simp [askRagCore, if_neg hg1, hg2] at hc
    · simp only [askRagCore, if_neg hg1, if_neg hg2] at hc
      split_ifs at hc
      all_goals
        first
        | exact absurd hc (List.not_mem_nil c)
        | (obtain ⟨r, hr, rfl⟩ := List.mem_map.mp hc
           exact List.mem_map.mpr
             ⟨r, select_citations_mem results _ hne r (List.mem_of_mem_take hr), rfl⟩)

/-- C6: whenever the cache entry for the request key, if present, holds the
(deterministic) filtered retrieval for that key — which is the only value
the code ever stores under it — every emitted citation's `chunk_id` is the
id of a candidate in the filtered ranked list that was passed to
generation. -/
theorem C6_citation_traceability (retrieve : String → Nat → List RankedCand)
    (cache : Option (List RankedCand)) (req : AskReq) (gen : GenReturn)
    (hcache : cache = none ∨
      cache = some (filter_results (retrieve req.question req.top_k)
        (effective_category req) req.applies_to)) :
    ∀ c ∈ (askRag retrieve cache req gen).citations,
      c.chunk_id ∈ (filter_results (retrieve req.question req.top_k)
        (effective_category req) req.applies_to).map (fun r => r.chunk_id) := by
  rcases hcache with h | h <;> subst h <;>
    simpa [askRag] using
      askRagCore_citations_traceable req.question req.top_k
        (filter_results (retrieve req.question req.top_k)
          (effective_category req) req.applies_to) gen

/-- The request used by the C6 witness. -/
def reqW : AskReq := { question := qWindow, top_k := 5, category := none, applies_to := none }

/-- C6, witness: concrete request whose single citation's chunk id occurs
in the filtered result list. -/
theorem C6_witness :
    (mkCitation candA).chunk_id ∈
      (filter_results [candA, candB] (effective_category reqW) reqW.applies_to).map
        (fun r => r.chunk_id) := by
  have hmem : mkCitation candA ∈
      (askRag (fun _ _ => [candA, candB]) none reqW genOkEmpty).citations := by
    have heq : askRag (fun _ _ => [candA, candB]) none reqW genOkEmpty
        = askRagCore qWindow 5 [candA, candB] [candA, candB] genOkEmpty := by
      simp only [askRag]
      rw [show filter_results [candA, candB] (effective_category reqW) reqW.applies_to
        = [candA, candB] from by decide]
      rfl
    rw [heq]
    have hresp : askRagCore qWindow 5 [candA, candB] [candA, candB] genOkEmpty
        = { question := qWindow, final_answer := "The refund window is 14 days.",
            citations := [mkCitation candA], debug_reason := none, debug_top_score := 1 } := by
      simp only [askRagCore]
      rw [if_neg (by
        push_neg
        exact ⟨by simp, by rw [show top_score_of [candA, candB] = 1 from by decide]; norm_num⟩)]
      rw [if_neg (by decide)]
      decide
    rw [hresp]
    exact List.mem_singleton.mpr rfl
  exact C6_citation_traceability (fun _ _ => [candA, candB]) none reqW genOkEmpty
    (Or.inl rfl) (mkCitation candA) hmem

end RagService
